import Mathlib

/-!
Verification of the response-decoding logic of the bc-api-client crate.

The central function is the `TryFrom<(StatusCode, HashMap<String, String>, String)>`
implementation for `Response<R>` in src/bc-api-client/src/response.rs, embedded
below as `try_from`, together with the `dispatch` method of the `Request` trait
implementation in src/bc-api-client/src/request.rs.

Modelling decisions:
- HTTP status codes are natural numbers; `reqwest::StatusCode::is_client_error`
  is membership in 400..=499 and `is_server_error` membership in 500..=599.
- The header `HashMap<String, String>` is modelled as an association list
  `List (String × String)`; the decoder only passes it through unchanged.
- The body is a `String` (the decoder receives the body after lossy UTF-8
  decoding, see `Response::decode`).
- serde_json is modelled by an explicit JSON value type `Json`, a total
  recursive-descent text parser `Json.parse` (fuelled), and per-type
  deserializers. A Rust type bound `R: DeserializeOwned` becomes an explicit
  dictionary `Deserialize R` carrying `from_value : Json → Except String R`
  (the semantics of `serde_json::from_value::<R>`); `from_str` is parsing
  followed by `from_value` (the semantics of `serde_json::from_str::<R>`).
  JSON numbers are modelled as integers (no float or exponent forms appear in
  any input considered here), and duplicate object keys resolve to the first
  occurrence.
-/

/-- JSON values, as in serde_json::Value (numbers restricted to integers). -/
inductive Json where
  | null
  | bool (b : Bool)
  | num (n : Int)
  | str (s : String)
  | arr (elems : List Json)
  | obj (fields : List (String × Json))

/-- The opening brace character of a JSON object. -/
def objOpen : Char := Char.ofNat 123

/-- The closing brace character of a JSON object. -/
def objClose : Char := Char.ofNat 125

/-- JSON insignificant whitespace. -/
def isJsonWs (c : Char) : Bool := c = ' ' || c = '\n' || c = '\t' || c = '\r'

/-- Drop leading JSON whitespace. -/
def skipWs : List Char → List Char
  | [] => []
  | c :: rest => if isJsonWs c then skipWs rest else c :: rest

/-- Value of a hexadecimal digit, if any (by character code). -/
def hexDigit (c : Char) : Option Nat :=
  let n := c.toNat
  if 48 ≤ n ∧ n ≤ 57 then some (n - 48)
  else if 97 ≤ n ∧ n ≤ 102 then some (n - 87)
  else if 65 ≤ n ∧ n ≤ 70 then some (n - 55)
  else none

/-- Single-character JSON string escapes. -/
def escChar (c : Char) : Option Char :=
  if c = '"' ∨ c = '\\' ∨ c = '/' then some c
  else if c = 'n' then some '\n'
  else if c = 't' then some '\t'
  else if c = 'r' then some '\r'
  else if c = 'b' then some (Char.ofNat 8)
  else if c = 'f' then some (Char.ofNat 12)
  else none

/-- Parse the body of a JSON string (after the opening quote), returning the
decoded characters and the remaining input. Surrogate pairs in unicode escapes
are not combined (no input considered here contains them). -/
def parseStringBody : List Char → Except String (List Char × List Char)
  | [] => .error "unterminated string"
  | '"' :: rest => .ok ([], rest)
  | '\\' :: 'u' :: w :: x :: y :: z :: rest =>
    match hexDigit w, hexDigit x, hexDigit y, hexDigit z with
    | some hw, some hx, some hy, some hz =>
      match parseStringBody rest with
      | .ok (s, r) => .ok (Char.ofNat (((hw * 16 + hx) * 16 + hy) * 16 + hz) :: s, r)
      | .error e => .error e
    | _, _, _, _ => .error "invalid unicode escape"
  | '\\' :: e :: rest =>
    match escChar e with
    | some c =>
      match parseStringBody rest with
      | .ok (s, r) => .ok (c :: s, r)
      | .error err => .error err
    | none => .error "invalid escape"
  | c :: rest =>
    match parseStringBody rest with
    | .ok (s, r) => .ok (c :: s, r)
    | .error err => .error err

/-- Accumulate a decimal digit run into a natural number. -/
def digitsToNat : List Char → Nat → Nat
  | [], acc => acc
  | c :: rest, acc => digitsToNat rest (acc * 10 + (c.toNat - 48))

/-- Parse a JSON number (integer forms only; the leading-zero restriction of
serde_json is not modelled, no input here exercises it). -/
def parseNumber (cs : List Char) : Except String (Json × List Char) :=
  let signed : Bool × List Char :=
    match cs with
    | '-' :: rest => (true, rest)
    | _ => (false, cs)
  let digits := signed.2.takeWhile Char.isDigit
  let rest := signed.2.dropWhile Char.isDigit
  if digits.isEmpty then .error "invalid number"
  else
    let n : Int := Int.ofNat (digitsToNat digits 0)
    .ok (.num (if signed.1 then -n else n), rest)

mutual

/-- Fuelled recursive-descent parser for one JSON value. -/
def parseValue : Nat → List Char → Except String (Json × List Char)
  | 0, _ => .error "recursion depth exceeded"
  | fuel + 1, cs =>
    match skipWs cs with
    | [] => .error "unexpected end of input"
    | 'n' :: 'u' :: 'l' :: 'l' :: rest => .ok (.null, rest)
    | 't' :: 'r' :: 'u' :: 'e' :: rest => .ok (.bool true, rest)
    | 'f' :: 'a' :: 'l' :: 's' :: 'e' :: rest => .ok (.bool false, rest)
    | '"' :: rest =>
      match parseStringBody rest with
      | .ok (s, r) => .ok (.str (String.mk s), r)
      | .error e => .error e
    | '[' :: rest =>
      (match skipWs rest with
       | ']' :: r => .ok (.arr [], r)
       | cs2 => parseElems fuel cs2 [])
    | c :: rest =>
      if c = objOpen then
        (match skipWs rest with
         | c2 :: r =>
           if c2 = objClose then .ok (.obj [], r)
           else parseFields fuel (c2 :: r) []
         | [] => .error "unexpected end of object")
      else if c = '-' ∨ c.isDigit then parseNumber (c :: rest)
      else .error "unexpected character"

/-- Parse the elements of a non-empty JSON array. -/
def parseElems : Nat → List Char → List Json → Except String (Json × List Char)
  | 0, _, _ => .error "recursion depth exceeded"
  | fuel + 1, cs, acc =>
    match parseValue fuel cs with
    | .error e => .error e
    | .ok (v, rest) =>
      match skipWs rest with
      | ',' :: r => parseElems fuel r (acc ++ [v])
      | ']' :: r => .ok (.arr (acc ++ [v]), r)
      | _ => .error "expected comma or closing bracket"

/-- Parse the fields of a non-empty JSON object. -/
def parseFields : Nat → List Char → List (String × Json) →
    Except String (Json × List Char)
  | 0, _, _ => .error "recursion depth exceeded"
  | fuel + 1, cs, acc =>
    match skipWs cs with
    | '"' :: rest =>
      (match parseStringBody rest with
       | .error e => .error e
       | .ok (key, rest2) =>
         match skipWs rest2 with
         | ':' :: rest3 =>
           (match parseValue fuel rest3 with
            | .error e => .error e
            | .ok (v, rest4) =>
              match skipWs rest4 with
              | ',' :: r => parseFields fuel r (acc ++ [(String.mk key, v)])
              | c :: r =>
                if c = objClose then .ok (.obj (acc ++ [(String.mk key, v)]), r)
                else .error "expected comma or closing brace"
              | [] => .error "unexpected end of object")
         | _ => .error "expected colon")
    | _ => .error "expected object key"

end

/-- Parse a complete JSON document, rejecting trailing non-whitespace, as
serde_json::from_str does on its text input. -/
def Json.parse (s : String) : Except String Json :=
  match parseValue (s.length + 2) s.data with
  | .error e => .error e
  | .ok (j, rest) => if (skipWs rest).isEmpty then .ok j else .error "trailing characters"

/-- The capability a Rust bound `R: DeserializeOwned` provides to the decoder:
deserialization from a JSON value (`serde_json::from_value::<R>`). -/
structure Deserialize (R : Type) where
  from_value : Json → Except String R

/-- Semantics of `serde_json::from_str::<R>`: parse the text, then
deserialize the resulting value. -/
def from_str {R : Type} (d : Deserialize R) (s : String) : Except String R :=
  match Json.parse s with
  | .ok v => d.from_value v
  | .error e => .error e

/-- `GenericError` from src/bc-api-client/src/response.rs. -/
structure GenericError where
  error : String
  message : String
deriving DecidableEq

/-- `GenericError::new`: the given error code with an empty message. -/
def GenericError.new (error : String) : GenericError :=
  { error := error, message := "" }

/-- `GenericError::with_message`: replace the message field. -/
def GenericError.with_message (g : GenericError) (message : String) : GenericError :=
  { g with message := message }

/-- `Response<R>` from src/bc-api-client/src/response.rs. -/
structure Response (R : Type) where
  status : Nat
  headers : List (String × String)
  body : R

/-- `StatusCode::is_client_error` (reqwest): the 4xx range. -/
def is_client_error (status : Nat) : Bool := 400 ≤ status && status ≤ 499

/-- `StatusCode::is_server_error` (reqwest): the 5xx range. -/
def is_server_error (status : Nat) : Bool := 500 ≤ status && status ≤ 599

/-- `StatusCode::BAD_REQUEST`. -/
def BAD_REQUEST : Nat := 400

/-- The empty-body substitution at the top of `try_from`:
`if message.is_empty() \x7b message.push_str("null"); \x7d`. -/
def substituted (message : String) : String :=
  if message.isEmpty then message ++ "null" else message

/-- The `TryFrom<(StatusCode, HashMap<String, String>, String)>` implementation
for `Response<R>` in src/bc-api-client/src/response.rs (the tuple argument is
curried). `json!(message)` on a `String` is the JSON string value
`Json.str message`. -/
def try_from {R : Type} (d : Deserialize R) (status : Nat)
    (headers : List (String × String)) (message : String) :
    Except (Response GenericError) (Response R) :=
  let message := substituted message
  -- check if returned status is error
  if is_client_error status || is_server_error status then
    .error { status := status, headers := headers,
             body := (GenericError.new "status is error").with_message message }
  else
    -- try to deserialize response body into the expected type
    match from_str d message with
    | .ok body => .ok { status := status, headers := headers, body := body }
    | .error error =>
      -- as a fallback, try to cast response into valid json string
      match d.from_value (.str message) with
      | .ok body => .ok { status := status, headers := headers, body := body }
      | .error _ =>
        .error { status := BAD_REQUEST, headers := headers,
                 body := (GenericError.new error).with_message message }

/-- Deserializer for Rust `String`: accepts exactly JSON string values. -/
def stringDe : Deserialize String :=
  ⟨fun v =>
    match v with
    | .str s => .ok s
    | _ => .error "invalid type: expected a string"⟩

/-- Deserializer for Rust `()`: accepts exactly JSON null. -/
def unitDe : Deserialize Unit :=
  ⟨fun v =>
    match v with
    | .null => .ok ()
    | _ => .error "invalid type: expected null"⟩

/-- Deserializer for Rust `u64`: integers in `[0, 2^64)`. -/
def u64De : Deserialize Nat :=
  ⟨fun v =>
    match v with
    | .num n =>
      if 0 ≤ n ∧ n < 2 ^ 64 then .ok n.toNat
      else .error "invalid value: integer out of range for u64"
    | _ => .error "invalid type: expected u64"⟩

/-- Deserializer for `serde_json::Value` itself: accepts every JSON value. -/
def valueDe : Deserialize Json := ⟨fun v => .ok v⟩

/-- First value bound to a key in a JSON object. -/
def lookupField (fields : List (String × Json)) (key : String) : Option Json :=
  match fields with
  | [] => none
  | (k, v) :: rest => if k = key then some v else lookupField rest key

/-- Derived serde deserializer for `GenericError` (both fields required
strings; unknown fields ignored, as serde does by default). -/
def genericErrorDe : Deserialize GenericError :=
  ⟨fun v =>
    match v with
    | .obj fields =>
      match lookupField fields "error", lookupField fields "message" with
      | some (.str e), some (.str m) => .ok { error := e, message := m }
      | _, _ => .error "missing or ill-typed field for GenericError"
    | _ => .error "invalid type: expected struct GenericError"⟩

/-- The `TestData` struct of the tests in src/bc-api-client/src/response.rs:
`foo: u64, bar: String, baz: Option<u8>`. -/
structure TestData where
  foo : Nat
  bar : String
  baz : Option Nat
deriving DecidableEq

/-- Derived serde deserializer for `TestData` (an `Option` field defaults to
`None` when the key is missing). -/
def testDataDe : Deserialize TestData :=
  ⟨fun v =>
    match v with
    | .obj fields =>
      match lookupField fields "foo" with
      | some (.num n) =>
        if 0 ≤ n ∧ n < 2 ^ 64 then
          match lookupField fields "bar" with
          | some (.str b) =>
            (match lookupField fields "baz" with
             | none => .ok { foo := n.toNat, bar := b, baz := none }
             | some .null => .ok { foo := n.toNat, bar := b, baz := none }
             | some (.num m) =>
               if 0 ≤ m ∧ m < 256 then .ok { foo := n.toNat, bar := b, baz := some m.toNat }
               else .error "invalid value: integer out of range for u8"
             | some _ => .error "invalid type: expected u8 for field baz")
          | some _ => .error "invalid type: expected a string for field bar"
          | none => .error "missing field bar"
        else .error "invalid value: integer out of range for u64"
      | some _ => .error "invalid type: expected u64 for field foo"
      | none => .error "missing field foo"
    | _ => .error "invalid type: expected struct TestData"⟩

/-- The transport-level outcome consumed by `dispatch`: either the send itself
failed with an error description, or an HTTP exchange completed, exposing the
status and headers, with the body bytes possibly still failing to be read. -/
structure TransportResponse where
  status : Nat
  headers : List (String × String)
  bytes : Except String (List Nat)

/-- Modelled from the spec: `Response::new()` (called by `dispatch` in
src/bc-api-client/src/request.rs but absent from src) — a fresh response with
default (bad request) status, empty headers and empty body. -/
def Response.new : Response (List Nat) :=
  { status := BAD_REQUEST, headers := [], body := [] }

/-- Modelled from the spec: `Response::bad_request` (absent from src) — an
error response with status forced to bad request, the given transport failure
description as error code, an empty message, and the receiver headers (empty
at both call sites in `dispatch`). -/
def Response.bad_request {B : Type} (r : Response B) (e : String) : Response GenericError :=
  { status := BAD_REQUEST, headers := r.headers, body := GenericError.new e }

/-- Modelled from the spec: `Response::with_headers` (absent from src). -/
def Response.with_headers {B : Type} (r : Response B)
    (headers : List (String × String)) : Response B :=
  { r with headers := headers }

/-- Modelled from the spec: `Response::with_body` (absent from src). -/
def Response.with_body {B C : Type} (r : Response B) (body : C) : Response C :=
  { status := r.status, headers := r.headers, body := body }

/-- Modelled from the spec: `Response::with_status` (absent from src). -/
def Response.with_status {B : Type} (r : Response B) (status : Nat) : Response B :=
  { r with status := status }

/-- Modelled from the spec: `Response::error` (absent from src) — an error
response with the given status, the given description as error code, and the
receiver headers. -/
def Response.error {B : Type} (r : Response B) (status : Nat) (e : String) :
    Response GenericError :=
  { status := status, headers := r.headers, body := GenericError.new e }

/-- `Request::dispatch` for `reqwest::RequestBuilder` in
src/bc-api-client/src/request.rs, with the transport outcome passed in
explicitly. The Display form of a status code is modelled as its numeral
text. -/
def dispatch (transport : Except String TransportResponse) :
    Except (Response GenericError) (Response (List Nat)) :=
  match transport with
  | .error e => .error (Response.new.bad_request e)
  | .ok t =>
    match t.bytes with
    | .error e => .error (Response.new.bad_request e)
    | .ok bytes =>
      let response := (Response.new.with_headers t.headers).with_body bytes
      if is_client_error t.status || is_server_error t.status then
        .error (response.error t.status ("request failed with " ++ toString t.status))
      else
        .ok (response.with_status t.status)

/-- A deserialization target is string-like when it accepts only JSON string
values. -/
def StringLikeTarget {R : Type} (d : Deserialize R) : Prop :=
  ∀ (j : Json) (r : R), d.from_value j = .ok r → ∃ s, j = Json.str s

/-- A body that parses as a structured error object. -/
def structuredBody : String := "\x7b\"error\":\"E\",\"message\":\"M\"\x7d"

/-- The ill-typed `TestData` body of the `process_invalid_body` test. -/
def invalidBody : String := "\x7b\"foo\":\"12\",\"bar\":\"mybar\"\x7d"

/-- The well-typed `TestData` body of the `process_valid_body` test. -/
def validBody : String := "\x7b\"foo\":12,\"bar\":\"mybar\"\x7d"

/-- C1 (counterexample): at status 500 the body parses as a structured error
object with message "M", yet the decoder puts the raw body text, not the
structured message, into the message field. -/
theorem c1_counterexample :
    from_str genericErrorDe structuredBody = .ok { error := "E", message := "M" } ∧
    try_from stringDe 500 [] structuredBody =
      .error { status := 500, headers := [],
               body := { error := "status is error", message := structuredBody } } ∧
    structuredBody ≠ "M" :=
  ⟨rfl, rfl, by decide⟩

/-- C1 (amended): for every error-range status (4xx or 5xx) and every target
type, the decoder returns an error response carrying the original status and
headers, error code "status is error", and as message the raw body text (with
an empty body replaced by the token null); no structured error object is
preferred. -/
theorem c1_status_error_response {R : Type} (d : Deserialize R) (status : Nat)
    (headers : List (String × String)) (msg : String)
    (h : (is_client_error status || is_server_error status) = true) :
    try_from d status headers msg =
      .error { status := status, headers := headers,
               body := { error := "status is error", message := substituted msg } } := by
  simp [try_from, h, GenericError.new, GenericError.with_message]

/-- C1 (witness): status 418 with body invalid yields an error response with
status 418 and message "invalid". -/
theorem c1_status_error_response_witness :
    (is_client_error 418 || is_server_error 418) = true ∧
    try_from u64De 418 [] "invalid" =
      .error { status := 418, headers := [],
               body := { error := "status is error", message := "invalid" } } :=
  ⟨by decide, c1_status_error_response u64De 418 [] "invalid" (by decide)⟩

/-- C2 (counterexample): for an empty body with non-error status whose decode
and fallback both fail, the message field of the resulting error is the
substituted token null, not the raw (empty) body text. -/
theorem c2_counterexample :
    try_from u64De 200 [] "" =
      .error { status := 400, headers := [],
               body := { error := "invalid type: expected u64", message := "null" } } ∧
    ("null" : String) ≠ "" :=
  ⟨rfl, by decide⟩

/-- C2 (amended): for a non-error status, when both the structured decode of
the (substituted) body and the quoted-string fallback fail, the decoder
returns an error response with status forced to 400, the decode failure
description as error code, and the substituted body (the raw body, or the
token null when the body was empty) as message. -/
theorem c2_decode_failure_forced_400 {R : Type} (d : Deserialize R) (status : Nat)
    (headers : List (String × String)) (msg e e2 : String)
    (hs : (is_client_error status || is_server_error status) = false)
    (h1 : from_str d (substituted msg) = .error e)
    (h2 : d.from_value (.str (substituted msg)) = .error e2) :
    try_from d status headers msg =
      .error { status := 400, headers := headers,
               body := { error := e, message := substituted msg } } := by
  simp [try_from, hs, h1, h2, BAD_REQUEST, GenericError.new, GenericError.with_message]

/-- C2 (witness): the ill-typed TestData body at status 201 decodes to an
error response with status 400. -/
theorem c2_decode_failure_forced_400_witness :
    ((is_client_error 201 || is_server_error 201) = false ∧
      from_str testDataDe (substituted invalidBody) =
        .error "invalid type: expected u64 for field foo" ∧
      testDataDe.from_value (.str (substituted invalidBody)) =
        .error "invalid type: expected struct TestData") ∧
    try_from testDataDe 201 [] invalidBody =
      .error { status := 400, headers := [],
               body := { error := "invalid type: expected u64 for field foo",
                         message := substituted invalidBody } } :=
  ⟨⟨by decide, rfl, rfl⟩,
    c2_decode_failure_forced_400 testDataDe 201 [] invalidBody _ _ (by decide) rfl rfl⟩

/-- C3 (counterexample): the quoted-string retry is not restricted to
string-like targets: the serde_json Value target accepts non-string JSON
values, its structured decode of the bare body fails, and the decoder still
succeeds through the quoted-string fallback. -/
theorem c3_counterexample :
    ¬ StringLikeTarget valueDe ∧
    from_str valueDe "hello world" = .error "unexpected character" ∧
    try_from valueDe 200 [] "hello world" =
      .ok { status := 200, headers := [], body := .str "hello world" } := by
  refine ⟨fun h => ?_, rfl, rfl⟩
  obtain ⟨s, hs⟩ := h .null .null rfl
  exact Json.noConfusion hs

/-- C3 (amended): whenever the structured decode of the (substituted) body
fails and the target accepts a JSON string value wrapping that body text, the
decoder succeeds through the quoted-string retry, for every target type. -/
theorem c3_string_fallback {R : Type} (d : Deserialize R) (status : Nat)
    (headers : List (String × String)) (msg e : String) (v : R)
    (hs : (is_client_error status || is_server_error status) = false)
    (h1 : from_str d (substituted msg) = .error e)
    (h2 : d.from_value (.str (substituted msg)) = .ok v) :
    try_from d status headers msg =
      .ok { status := status, headers := headers, body := v } := by
  simp [try_from, hs, h1, h2]

/-- C3 (witness): the bare unquoted body hello world with target type String
and status 200 decodes to a success with body "hello world". -/
theorem c3_string_fallback_witness :
    ((is_client_error 200 || is_server_error 200) = false ∧
      from_str stringDe (substituted "hello world") = .error "unexpected character" ∧
      stringDe.from_value (.str (substituted "hello world")) = .ok "hello world") ∧
    try_from stringDe 200 [] "hello world" =
      .ok { status := 200, headers := [], body := "hello world" } :=
  ⟨⟨by decide, rfl, rfl⟩,
    c3_string_fallback stringDe 200 [] "hello world" _ "hello world" (by decide) rfl rfl⟩

/-- C4: decoding an empty body is identical to decoding the literal token
null, for every target type, status and header map; in particular an empty
body with status 204 and unit target decodes to a success with unit body. -/
theorem c4_empty_body_null_substitution :
    (∀ (R : Type) (d : Deserialize R) (status : Nat) (headers : List (String × String)),
        try_from d status headers "" = try_from d status headers "null") ∧
    try_from unitDe 204 [] "" = .ok { status := 204, headers := [], body := () } :=
  ⟨fun _ _ _ _ => rfl, rfl⟩

/-- C5: whenever the decoder returns a success, the status carried in that
response is neither a client error nor a server error. -/
theorem c5_ok_status_not_error {R : Type} (d : Deserialize R) (status : Nat)
    (headers : List (String × String)) (msg : String) (resp : Response R)
    (h : try_from d status headers msg = .ok resp) :
    is_client_error resp.status = false ∧ is_server_error resp.status = false := by
  by_cases hs : (is_client_error status || is_server_error status) = true
  · simp [try_from, hs] at h
  · have hs2 : (is_client_error status || is_server_error status) = false :=
      eq_false_of_ne_true hs
    have hstat : resp.status = status := by
      simp only [try_from, hs2, Bool.false_eq_true, if_false] at h
      cases hfs : from_str d (substituted msg) with
      | ok body =>
        rw [hfs] at h
        cases Except.ok.inj h
        rfl
      | error err =>
        rw [hfs] at h
        cases hfv : Deserialize.from_value d (Json.str (substituted msg)) with
        | ok body =>
          rw [hfv] at h
          cases Except.ok.inj h
          rfl
        | error e2 =>
          rw [hfv] at h
          exact absurd h (by simp)
    rw [hstat]
    exact Bool.or_eq_false_iff.mp hs2

/-- C5 (witness): a quoted string body at status 200 decodes to a success
whose status is in no error range. -/
theorem c5_ok_status_not_error_witness :
    try_from stringDe 200 [] "\"hi\"" =
      .ok { status := 200, headers := [], body := "hi" } ∧
    is_client_error (Response.status { status := 200, headers := [], body := "hi" }) = false ∧
    is_server_error (Response.status { status := 200, headers := [], body := "hi" }) = false :=
  ⟨rfl, c5_ok_status_not_error stringDe 200 [] "\"hi\"" { status := 200, headers := [], body := "hi" } rfl⟩

/-- C6: the decoder is the identity on successful structured decodes — for any
2xx status and any nonempty serialized form that deserializes back to a value,
decoding returns a success carrying that status, the headers and the value. -/
theorem c6_roundtrip_decode {R : Type} (d : Deserialize R) (status : Nat)
    (headers : List (String × String)) (s : String) (v : R)
    (h2xx : 200 ≤ status ∧ status ≤ 299)
    (hne : s.isEmpty = false)
    (hrt : from_str d s = .ok v) :
    try_from d status headers s =
      .ok { status := status, headers := headers, body := v } := by
  have hsub : substituted s = s := by simp [substituted, hne]
  have hc : is_client_error status = false := by
    simp only [is_client_error]
    simp only [Bool.and_eq_false_iff, decide_eq_false_iff_not]
    omega
  have hsrv : is_server_error status = false := by
    simp only [is_server_error]
    simp only [Bool.and_eq_false_iff, decide_eq_false_iff_not]
    omega
  simp [try_from, hsub, hc, hsrv, hrt]

/-- C6 (witness): the JSON object body of the process_valid_body test at
status 201 decodes to a success with foo 12, bar "mybar" and no baz. -/
theorem c6_roundtrip_decode_witness :
    ((200 ≤ 201 ∧ 201 ≤ 299) ∧ validBody.isEmpty = false ∧
      from_str testDataDe validBody = .ok { foo := 12, bar := "mybar", baz := none }) ∧
    try_from testDataDe 201 [] validBody =
      .ok { status := 201, headers := [],
            body := { foo := 12, bar := "mybar", baz := none } } :=
  ⟨⟨by decide, rfl, rfl⟩,
    c6_roundtrip_decode testDataDe 201 [] validBody _ (by decide) rfl rfl⟩

/-- C7: when the send itself fails, or when reading the body bytes fails,
dispatch returns an error response with status defaulted to 400, the
transport failure description as error code, and an empty header map. -/
theorem c7_transport_failure (e : String) (st : Nat) (hd : List (String × String)) :
    dispatch (.error e) =
      .error { status := 400, headers := [], body := { error := e, message := "" } } ∧
    dispatch (.ok { status := st, headers := hd, bytes := .error e }) =
      .error { status := 400, headers := [], body := { error := e, message := "" } } :=
  ⟨rfl, rfl⟩

/-- C8: the decoder is deterministic — equal input triples for the same target
type produce equal results. -/
theorem c8_deterministic {R : Type} (d : Deserialize R) (s1 s2 : Nat)
    (h1 h2 : List (String × String)) (m1 m2 : String)
    (hs : s1 = s2) (hh : h1 = h2) (hm : m1 = m2) :
    try_from d s1 h1 m1 = try_from d s2 h2 m2 := by
  rw [hs, hh, hm]

/-- C8 (witness): two decodes of the same concrete input agree. -/
theorem c8_deterministic_witness :
    ((200 : Nat) = 200 ∧ ([] : List (String × String)) = [] ∧ ("x" : String) = "x") ∧
    try_from u64De 200 [] "x" = try_from u64De 200 [] "x" :=
  ⟨⟨rfl, rfl, rfl⟩, c8_deterministic u64De 200 200 [] [] "x" "x" rfl rfl rfl⟩

/-- C9: an empty body with a non-error status and target type String decodes
to a success whose body is the four-character text null: the substituted
token fails the structured string decode and the quoted-string fallback then
succeeds on the substituted text. -/
theorem c9_empty_body_string_null (status : Nat) (headers : List (String × String))
    (hs : (is_client_error status || is_server_error status) = false) :
    try_from stringDe status headers "" =
      .ok { status := status, headers := headers, body := "null" } := by
  have h1 : from_str stringDe (substituted "") = .error "invalid type: expected a string" := rfl
  have h2 : stringDe.from_value (.str (substituted "")) = .ok "null" := rfl
  simp [try_from, hs, h1, h2]

/-- C9 (witness): the empty body at status 200 with target String decodes to
a success with body "null". -/
theorem c9_empty_body_string_null_witness :
    (is_client_error 200 || is_server_error 200) = false ∧
    try_from stringDe 200 [] "" =
      .ok { status := 200, headers := [], body := "null" } :=
  ⟨by decide, c9_empty_body_string_null 200 [] (by decide)⟩

/-- C10: on the body-decoding failure branch (non-error incoming status, error
result), the returned error response preserves the original header map
unchanged while its status is the forced 400. -/
theorem c10_decode_failure_headers_preserved {R : Type} (d : Deserialize R)
    (status : Nat) (headers : List (String × String)) (msg : String)
    (r : Response GenericError)
    (hs : (is_client_error status || is_server_error status) = false)
    (h : try_from d status headers msg = .error r) :
    r.headers = headers ∧ r.status = 400 := by
  simp only [try_from, hs, Bool.false_eq_true, if_false] at h
  cases hfs : from_str d (substituted msg) with
  | ok body =>
    rw [hfs] at h
    exact absurd h (by simp)
  | error err =>
    rw [hfs] at h
    cases hfv : Deserialize.from_value d (Json.str (substituted msg)) with
    | ok body =>
      rw [hfv] at h
      exact absurd h (by simp)
    | error e2 =>
      rw [hfv] at h
      cases Except.error.inj h
      exact ⟨rfl, rfl⟩

/-- C10 (witness): a failing decode at status 200 with one header preserves
that header and forces status 400. -/
theorem c10_decode_failure_headers_preserved_witness :
    ((is_client_error 200 || is_server_error 200) = false ∧
      try_from u64De 200 [("foo", "bar")] "oops" =
        .error { status := 400, headers := [("foo", "bar")],
                 body := { error := "unexpected character", message := "oops" } }) ∧
    Response.headers
        ({ status := 400, headers := [("foo", "bar")],
           body := { error := "unexpected character", message := "oops" } } : Response GenericError) =
      [("foo", "bar")] ∧
    Response.status
        ({ status := 400, headers := [("foo", "bar")],
           body := { error := "unexpected character", message := "oops" } } : Response GenericError) =
      400 :=
  ⟨⟨by decide, rfl⟩,
    c10_decode_failure_headers_preserved u64De 200 [("foo", "bar")] "oops" _ (by decide) rfl⟩
